import Mathlib

/-!
Shallow embedding of the pebble-tool install and emulator-status logic:
`pebble_tool/commands/install.py` (`ToolAppInstaller`) and
`pebble_tool/commands/sdk/emulator.py` (`StatusCommand`).

External calls (libpebble2 connection operations, the OS process probe,
the project resolver) are modelled as oracles passed in explicitly; the
control flow of the Python functions, including its `try`/`except`/`finally`
structure, is translated statement by statement.
-/

/-- Errors a Python call in the modelled region can raise.
`connError` models `libpebble2.exceptions.ConnectionError`,
`timeoutError` models `libpebble2.exceptions.TimeoutError`,
`otherError` models any other `Exception`. -/
inductive PyErr where
  | connError (msg : String)
  | timeoutError
  | otherError (msg : String)
deriving DecidableEq

/-- Registry record for the qemu role: `info['qemu']` with keys `pid` and `vnc`.
A missing `pid` key is `none`; the `vnc` flag is read with a truthiness test. -/
structure QemuRecord where
  pid : Option Nat
  vnc : Bool
deriving DecidableEq

/-- Registry record for the pypkjs role: `info['pypkjs']` with keys `pid` and `port`. -/
structure PypkjsRecord where
  pid : Option Nat
  port : Option Nat
deriving DecidableEq

/-- Registry record for the websockify role: `info['websockify']` with key `pid`. -/
structure WebsockifyRecord where
  pid : Option Nat
deriving DecidableEq

/-- One emulator instance's registry entry (`info` in `_show_emulator_status`).
A role key can be absent altogether (`info.get(role, {})` yields `{}`). -/
structure EmulatorInfo where
  qemu : Option QemuRecord
  pypkjs : Option PypkjsRecord
  websockify : Option WebsockifyRecord
deriving DecidableEq

/-- Behaviour of the external calls made by `_show_app_status`:
`connection.connect()`, `connection.run_async()`,
`connection.send_and_read(AppRunState(..), AppRunState, timeout=5)`, and
`PebbleProject()` resolution from the current working directory.
`sendAndRead`'s payload is `response.data.uuid`, with `none` for a falsy uuid;
`projectUuid = none` models `PebbleProject()` raising `InvalidProjectException`. -/
structure Oracle where
  connect : Except PyErr Unit
  runAsync : Except PyErr Unit
  sendAndRead : Except PyErr (Option Nat)
  projectUuid : Option Nat

/-- The app line printed by `_show_app_status`, as a structured outcome. -/
inductive AppOutcome where
  | noPort
  | running (uuid : Nat) (currentProject : Bool)
  | idle
  | unresponsive
  | disconnected (msg : String)
  | unknown (e : PyErr)
deriving DecidableEq

/-- Observable result of one `_show_app_status` run: the printed outcome,
whether the routine went past the port check (and so tried to open a
connection), how many `connect()` calls succeeded, and how many
`disconnect()` calls were made. -/
structure AppQuery where
  outcome : AppOutcome
  attempted : Bool
  opened : Nat
  closed : Nat
deriving DecidableEq

/-- `StatusCommand._check_project_match`: `PebbleProject().uuid == app_uuid`,
with `InvalidProjectException` caught and turned into `False`. -/
def check_project_match (projectUuid : Option Nat) (app_uuid : Option Nat) : Bool :=
  match projectUuid with
  | some u => app_uuid == some u
  | none => false

/-- The outer exception handlers of `_show_app_status`:
`except ConnectionError` first, then `except Exception`. -/
def handle_outer_except (e : PyErr) (opened closed : Nat) : AppQuery :=
  match e with
  | .connError m => { outcome := .disconnected m, attempted := true, opened := opened, closed := closed }
  | e => { outcome := .unknown e, attempted := true, opened := opened, closed := closed }

/-- `StatusCommand._show_app_status`, translated statement by statement.
The inner `try` catches only `TimeoutError` and has `finally: connection.disconnect()`;
every other exception from `send_and_read` runs the `finally` and then reaches
the outer handlers. Exceptions raised by `connect()` or `run_async()` reach the
outer handlers directly, without any `disconnect()`. -/
def show_app_status (o : Oracle) (info : EmulatorInfo) : AppQuery :=
  let pypkjs_port := info.pypkjs.bind PypkjsRecord.port
  if pypkjs_port.getD 0 == 0 then
    { outcome := .noPort, attempted := false, opened := 0, closed := 0 }
  else
    match o.connect with
    | .error e => handle_outer_except e 0 0
    | .ok _ =>
      match o.runAsync with
      | .error e => handle_outer_except e 1 0
      | .ok _ =>
        match o.sendAndRead with
        | .ok app_uuid =>
          let project_match := check_project_match o.projectUuid app_uuid
          match app_uuid with
          | some u =>
            { outcome := .running u project_match, attempted := true, opened := 1, closed := 1 }
          | none =>
            { outcome := .idle, attempted := true, opened := 1, closed := 1 }
        | .error .timeoutError =>
          { outcome := .unresponsive, attempted := true, opened := 1, closed := 1 }
        | .error e => handle_outer_except e 1 1

/-- Composite emulator state, as printed on the `Status:` line. -/
inductive CompositeState where
  | RUNNING
  | DEGRADED (reason : String)
  | STOPPED
deriving DecidableEq

/-- Python truthiness-guarded liveness: `pid and _is_pid_running(pid)`.
`isAlive` is the boolean result of the external probe. -/
def pidAlive (isAlive : Nat → Bool) : Option Nat → Bool
  | none => false
  | some p => (p != 0) && isAlive p

/-- `qemu_alive` as computed at emulator.py line 101. -/
def qemuAlive (isAlive : Nat → Bool) (info : EmulatorInfo) : Bool :=
  pidAlive isAlive (info.qemu.bind QemuRecord.pid)

/-- `pypkjs_alive` as computed at emulator.py line 102. -/
def pypkjsAlive (isAlive : Nat → Bool) (info : EmulatorInfo) : Bool :=
  pidAlive isAlive (info.pypkjs.bind PypkjsRecord.pid)

/-- The truthiness test `info.get('qemu', {}).get('vnc')`. -/
def vncFlag (info : EmulatorInfo) : Bool :=
  (info.qemu.map QemuRecord.vnc).getD false

/-- Truthiness of `info.get('pypkjs', {}).get('port')`: a recorded, nonzero port. -/
def portTruthy (info : EmulatorInfo) : Bool :=
  (info.pypkjs.bind PypkjsRecord.port).getD 0 != 0

/-- Observable result of `_show_emulator_status` for one instance:
the composite state, the VNC sub-status line (`none` when no VNC line is
printed, otherwise whether websockify was reported alive), and the
`_show_app_status` result when that call was made. -/
structure EmuStatus where
  state : CompositeState
  vnc : Option Bool
  app : Option AppQuery
deriving DecidableEq

/-- `StatusCommand._show_emulator_status`, translated. The STOPPED branch
returns early (line 123) before the VNC check; the two DEGRADED branches and
the RUNNING branch fall through to the VNC check, and `_show_app_status` is
called only under `if qemu_alive and pypkjs_alive` (line 134). -/
def show_emulator_status (isAlive : Nat → Bool) (o : Oracle) (info : EmulatorInfo) : EmuStatus :=
  let qemu_alive := qemuAlive isAlive info
  let pypkjs_alive := pypkjsAlive isAlive info
  let rest := fun (state : CompositeState) =>
    let vnc := if vncFlag info then
        some (pidAlive isAlive (info.websockify.bind WebsockifyRecord.pid))
      else none
    let app := if qemu_alive && pypkjs_alive then some (show_app_status o info) else none
    { state := state, vnc := vnc, app := app : EmuStatus }
  if qemu_alive && pypkjs_alive then rest .RUNNING
  else if qemu_alive && !pypkjs_alive then rest (.DEGRADED "pypkjs not running")
  else if !qemu_alive && pypkjs_alive then rest (.DEGRADED "QEMU not running")
  else { state := .STOPPED, vnc := none, app := none }

/-- The composite-state table of the source's four-way branch, as a pure
function of the two liveness booleans. -/
def compositeOf : Bool → Bool → CompositeState
  | true, true => .RUNNING
  | true, false => .DEGRADED "pypkjs not running"
  | false, true => .DEGRADED "QEMU not running"
  | false, false => .STOPPED

/-- Result of one install attempt, as surfaced by `ToolAppInstaller`:
`failure` carries the `ToolError` message. -/
inductive InstallResult where
  | success
  | failure (reason : String)
deriving DecidableEq

/-- Behaviour of the websocket peer during `_install_via_websocket`:
`reply = some (t, s)` means a `WebSocketInstallStatus` message with status
code `s` becomes available `t` time units after the bundle is sent;
`none` means no reply ever arrives. -/
structure WsEnv where
  reply : Option (Nat × Nat)
deriving DecidableEq

/-- `pebble.read_transport_message(MessageTargetPhone, WebSocketInstallStatus,
timeout=timeout)`: returns the reply's status code if one arrives within
`timeout` time units, and raises `TimeoutError` (here `.error ()`) otherwise. -/
def read_transport_message (env : WsEnv) (timeout : Nat) : Except Unit Nat :=
  match env.reply with
  | some (t, s) => if t ≤ timeout then .ok s else .error ()
  | none => .error ()

/-- `ToolAppInstaller._install_via_websocket`: send the bundle, wait up to 300
time units for the install-status reply, map `TimeoutError` to a timeout
`ToolError`, a non-Success status code to `ToolError("App install failed.")`,
and the designated Success code (`successCode`) to success. -/
def install_via_websocket (successCode : Nat) (env : WsEnv) : InstallResult :=
  match read_transport_message env 300 with
  | .error _ => .failure "Timed out waiting for install confirmation."
  | .ok s => if s != successCode then .failure "App install failed." else .success

/-- Modelled from the spec: the chunked transfer driven by
`AppInstaller.install()` (libpebble2), which is not under `src/`; only the
registration of the progress callback is (`_install_via_serial`,
install.py lines 87-96). Per spec §4.2 step 2, the bundle is sent in chunks;
after each successfully sent chunk the progress callback is invoked with
`(bytesJustSent, cumulativeBytesSent, totalSize)`; a transfer-level error
aborts the transfer. Each list element is one chunk: its size and whether its
send succeeds. Returns whether the whole transfer completed and the list of
progress-callback arguments, in order. -/
def transferChunks (total : Nat) : Nat → List (Nat × Bool) → Bool × List (Nat × Nat × Nat)
  | _, [] => (true, [])
  | sent, (c, ok) :: rest =>
    if ok then
      let r := transferChunks total (sent + c) rest
      (r.1, (c, sent + c, total) :: r.2)
    else (false, [])

/-- `ToolAppInstaller._install_via_serial` over the spec-modelled chunked
transfer: completion with no transfer error is success, any transfer error is
failure; the second component is the sequence of progress callbacks
(`_handle_pp_progress` receives each triple). -/
def install_via_serial (total : Nat) (chunks : List (Nat × Bool)) :
    InstallResult × List (Nat × Nat × Nat) :=
  let r := transferChunks total 0 chunks
  ((if r.1 then InstallResult.success else InstallResult.failure "transfer failed"), r.2)

/-- The cumulative-bytes-sent arguments of the progress callbacks. -/
def progressCums (total : Nat) (chunks : List (Nat × Bool)) : List Nat :=
  (install_via_serial total chunks).2.map (fun t => t.2.1)

/-- Outcome of the OS-level probe `os.kill(pid, 0)`: `none` is no error,
`noSuchProcess` is `ESRCH`, `otherErr` any other `OSError` errno. -/
inductive ProbeErr where
  | noSuchProcess
  | otherErr (code : Nat)
deriving DecidableEq

/-- Modelled from the spec: `ManagedEmulatorTransport._is_pid_running` lives in
`pebble_tool/sdk/emulator.py`, which is not under `src/`. Per spec §4.3 the
probe signals the process id without terminating it; absence-of-process is
`false`, success is `true`, and any other OS-level probe error propagates
(here `.error`). `kill0 pid` is the outcome of the signal-0 probe. -/
def is_pid_running (kill0 : Nat → Option ProbeErr) (pid : Nat) : Except Nat Bool :=
  match kill0 pid with
  | none => .ok true
  | some .noSuchProcess => .ok false
  | some (.otherErr c) => .error c

/-- Probe oracle under which no process is alive. -/
def aliveNone : Nat → Bool := fun _ => false

/-- Probe oracle under which every pid is alive. -/
def aliveAll : Nat → Bool := fun _ => true

/-- Probe oracle under which only pid 5 is alive. -/
def alive5 : Nat → Bool := fun p => p == 5

/-- Probe oracle under which only pid 6 is alive. -/
def alive6 : Nat → Bool := fun p => p == 6

/-- A registry entry with qemu pid 5 (no VNC) and pypkjs pid 6, port 9000. -/
def info0 : EmulatorInfo :=
  { qemu := some { pid := some 5, vnc := false },
    pypkjs := some { pid := some 6, port := some 9000 },
    websockify := none }

/-- Like `info0` but with the VNC flag recorded on the qemu record. -/
def infoVnc : EmulatorInfo :=
  { qemu := some { pid := some 5, vnc := true },
    pypkjs := some { pid := some 6, port := some 9000 },
    websockify := none }

/-- A registry entry whose qemu record is absent entirely. -/
def infoNoQemu : EmulatorInfo :=
  { qemu := none,
    pypkjs := some { pid := some 6, port := some 9000 },
    websockify := none }

/-- Like `info0` but with no recorded pypkjs port. -/
def infoNoPort : EmulatorInfo :=
  { qemu := some { pid := some 5, vnc := false },
    pypkjs := some { pid := some 6, port := none },
    websockify := none }

/-- Connection oracle: everything succeeds, the reply carries a nil uuid,
the working directory is not a project. -/
def oracleIdle : Oracle :=
  { connect := .ok (), runAsync := .ok (), sendAndRead := .ok none, projectUuid := none }

/-- Connection oracle: `connect()` succeeds, then `run_async()` raises
`ConnectionError` before the inner `try` is entered. -/
def oracleLeak : Oracle :=
  { connect := .ok (), runAsync := .error (.connError "socket closed"),
    sendAndRead := .ok none, projectUuid := none }

/-- Connection oracle: the reply carries uuid 77 and the current project
resolves to the same uuid 77. -/
def oracleMatch : Oracle :=
  { connect := .ok (), runAsync := .ok (), sendAndRead := .ok (some 77),
    projectUuid := some 77 }

/-- Connection oracle: the reply carries uuid 77 and project resolution fails
with `InvalidProjectException`. -/
def oracleNoProject : Oracle :=
  { connect := .ok (), runAsync := .ok (), sendAndRead := .ok (some 77),
    projectUuid := none }

/-- Connection oracle: `send_and_read` times out after 5 time units. -/
def oracleTimeout : Oracle :=
  { connect := .ok (), runAsync := .ok (), sendAndRead := .error .timeoutError,
    projectUuid := none }

/-- Probe outcome oracle: every pid probes as absent (`ESRCH`). -/
def kill0Dead : Nat → Option ProbeErr := fun _ => some ProbeErr.noSuchProcess

/-- Probe outcome oracle: every probe fails with a non-`ESRCH` errno (code 1). -/
def kill0Perm : Nat → Option ProbeErr := fun _ => some (ProbeErr.otherErr 1)

/-- Websocket install peer that never replies. -/
def envNoReply : WsEnv := { reply := none }

/-- Websocket install peer replying at time 10 with status code 3. -/
def envBadStatus : WsEnv := { reply := some (10, 3) }

theorem state_eq_compositeOf (isAlive : Nat → Bool) (o : Oracle) (info : EmulatorInfo) :
    (show_emulator_status isAlive o info).state
      = compositeOf (qemuAlive isAlive info) (pypkjsAlive isAlive info) := by
  cases hq : qemuAlive isAlive info <;> cases hp : pypkjsAlive isAlive info <;>
    simp [show_emulator_status, compositeOf, hq, hp]

theorem app_eq (isAlive : Nat → Bool) (o : Oracle) (info : EmulatorInfo) :
    (show_emulator_status isAlive o info).app
      = if qemuAlive isAlive info && pypkjsAlive isAlive info
        then some (show_app_status o info) else none := by
  cases hq : qemuAlive isAlive info <;> cases hp : pypkjsAlive isAlive info <;>
    simp [show_emulator_status, hq, hp]

theorem vnc_eq (isAlive : Nat → Bool) (o : Oracle) (info : EmulatorInfo) :
    (show_emulator_status isAlive o info).vnc
      = if (qemuAlive isAlive info || pypkjsAlive isAlive info) && vncFlag info
        then some (pidAlive isAlive (info.websockify.bind WebsockifyRecord.pid))
        else none := by
  cases hq : qemuAlive isAlive info <;> cases hp : pypkjsAlive isAlive info <;>
    simp [show_emulator_status, hq, hp]

theorem show_app_status_no_port (o : Oracle) (info : EmulatorInfo)
    (h : portTruthy info = false) :
    show_app_status o info
      = { outcome := .noPort, attempted := false, opened := 0, closed := 0 } := by
  have hx : (info.pypkjs.bind PypkjsRecord.port).getD 0 = 0 := by
    simp [portTruthy] at h
    exact h
  simp [show_app_status, hx]

/-- C1: For every registry instance and every one of the 4 combinations of
qemu (Engine) and pypkjs (Runtime) liveness, the composite state printed by
`_show_emulator_status` is STOPPED iff both are dead, RUNNING iff both are
alive, and otherwise DEGRADED naming the dead role: "pypkjs not running" when
qemu is alive and pypkjs dead, "QEMU not running" when qemu is dead and
pypkjs alive. -/
theorem composite_state_table (isAlive : Nat → Bool) (o : Oracle) (info : EmulatorInfo) :
    ((show_emulator_status isAlive o info).state = .STOPPED
        ↔ qemuAlive isAlive info = false ∧ pypkjsAlive isAlive info = false)
  ∧ ((show_emulator_status isAlive o info).state = .RUNNING
        ↔ qemuAlive isAlive info = true ∧ pypkjsAlive isAlive info = true)
  ∧ (qemuAlive isAlive info = true → pypkjsAlive isAlive info = false →
        (show_emulator_status isAlive o info).state = .DEGRADED "pypkjs not running")
  ∧ (qemuAlive isAlive info = false → pypkjsAlive isAlive info = true →
        (show_emulator_status isAlive o info).state = .DEGRADED "QEMU not running") := by
  cases hq : qemuAlive isAlive info <;> cases hp : pypkjsAlive isAlive info <;>
    simp [state_eq_compositeOf, hq, hp, compositeOf]

/-- Witness for C1 at a concrete input: qemu pid 5 alive, pypkjs pid 6 dead
yields DEGRADED (pypkjs not running). -/
theorem composite_state_table_witness :
    (show_emulator_status alive5 oracleIdle info0).state
      = CompositeState.DEGRADED "pypkjs not running" :=
  (composite_state_table alive5 oracleIdle info0).2.2.1 rfl rfl

/-- C9: A role whose registry record or recorded pid is missing is treated by
`_show_emulator_status` exactly as a dead role: its liveness value is false
and the composite-state table applies with that role counted as dead. -/
theorem missing_record_treated_as_dead (isAlive : Nat → Bool) (o : Oracle)
    (info : EmulatorInfo) :
    (info.qemu.bind QemuRecord.pid = none → qemuAlive isAlive info = false)
  ∧ (info.pypkjs.bind PypkjsRecord.pid = none → pypkjsAlive isAlive info = false)
  ∧ (show_emulator_status isAlive o info).state
      = compositeOf (qemuAlive isAlive info) (pypkjsAlive isAlive info) := by
  refine ⟨?_, ?_, state_eq_compositeOf isAlive o info⟩ <;>
    intro h <;> simp [qemuAlive, pypkjsAlive, h, pidAlive]

/-- Witness for C9 at a concrete input: the qemu record is absent entirely,
liveness comes out false and the table yields DEGRADED (QEMU not running). -/
theorem missing_record_treated_as_dead_witness :
    qemuAlive aliveAll infoNoQemu = false
  ∧ (show_emulator_status aliveAll oracleIdle infoNoQemu).state
      = CompositeState.DEGRADED "QEMU not running" := by
  have h := missing_record_treated_as_dead aliveAll oracleIdle infoNoQemu
  exact ⟨h.1 rfl, h.2.2.trans (by decide)⟩

/-- C10: For a STOPPED instance `_show_emulator_status` returns before the VNC
check, so no VNC sub-status is reported even when the VNC flag is recorded;
a VNC sub-status is emitted only for non-STOPPED instances whose qemu record
has the vnc flag set. -/
theorem vnc_not_reported_when_stopped (isAlive : Nat → Bool) (o : Oracle)
    (info : EmulatorInfo) :
    ((show_emulator_status isAlive o info).state = .STOPPED →
        (show_emulator_status isAlive o info).vnc = none)
  ∧ ((show_emulator_status isAlive o info).vnc.isSome = true →
        (show_emulator_status isAlive o info).state ≠ .STOPPED ∧ vncFlag info = true) := by
  cases hq : qemuAlive isAlive info <;> cases hp : pypkjsAlive isAlive info <;>
    cases hv : vncFlag info <;>
    simp [state_eq_compositeOf, vnc_eq, hq, hp, hv, compositeOf]

/-- Witness for C10 at a concrete input: a stopped instance with the VNC flag
recorded gets no VNC sub-status. -/
theorem vnc_not_reported_when_stopped_witness :
    (show_emulator_status aliveNone oracleIdle infoVnc).vnc = none :=
  (vnc_not_reported_when_stopped aliveNone oracleIdle infoVnc).1 (by decide)

/-- C5: `_show_app_status` is invoked only when the composite state is RUNNING
(never for STOPPED or DEGRADED instances), and it opens no connection unless a
truthy pypkjs port was recorded: when a query result exists the state is
RUNNING; when the state is STOPPED no query happened; a query that got past
the port check had a recorded nonzero port; and with no such port nothing was
attempted and no connection was opened. -/
theorem app_query_only_when_running_with_port (isAlive : Nat → Bool) (o : Oracle)
    (info : EmulatorInfo) :
    (∀ q, (show_emulator_status isAlive o info).app = some q →
        (show_emulator_status isAlive o info).state = .RUNNING)
  ∧ ((show_emulator_status isAlive o info).state = .STOPPED →
        (show_emulator_status isAlive o info).app = none)
  ∧ (∀ q, (show_emulator_status isAlive o info).app = some q → q.attempted = true →
        portTruthy info = true)
  ∧ (∀ q, (show_emulator_status isAlive o info).app = some q → portTruthy info = false →
        q.attempted = false ∧ q.opened = 0) := by
  refine ⟨?_, ?_, ?_, ?_⟩
  · intro q hq
    rw [app_eq] at hq
    rw [state_eq_compositeOf]
    cases hE : qemuAlive isAlive info <;> cases hR : pypkjsAlive isAlive info <;>
      simp_all [compositeOf]
  · intro hs
    rw [app_eq]
    rw [state_eq_compositeOf] at hs
    cases hE : qemuAlive isAlive info <;> cases hR : pypkjsAlive isAlive info <;>
      simp_all [compositeOf]
  · intro q hq hatt
    rw [app_eq] at hq
    cases hE : qemuAlive isAlive info && pypkjsAlive isAlive info
    · simp [hE] at hq
    · simp [hE] at hq
      subst hq
      cases hpt : portTruthy info
      · rw [show_app_status_no_port o info hpt] at hatt
        simp at hatt
      · rfl
  · intro q hq hpt
    rw [app_eq] at hq
    cases hE : qemuAlive isAlive info && pypkjsAlive isAlive info
    · simp [hE] at hq
    · simp [hE] at hq
      subst hq
      rw [show_app_status_no_port o info hpt]
      exact ⟨rfl, rfl⟩

/-- Witness for C5 at a concrete input: for a STOPPED instance no app query
is made. -/
theorem app_query_only_when_running_with_port_witness :
    (show_emulator_status aliveNone oracleIdle info0).app = none :=
  (app_query_only_when_running_with_port aliveNone oracleIdle info0).2.1 (by decide)

theorem port_check_false_of_truthy (info : EmulatorInfo)
    (hport : portTruthy info = true) :
    ((info.pypkjs.bind PypkjsRecord.port).getD 0 == 0) = false := by
  simp [portTruthy] at hport
  simp [hport]

/-- C4: For every invocation of `_show_app_status` with a recorded port, the
outcome maps as: a reply with a nil uuid yields the idle line; a
`TimeoutError` from the 5-unit `send_and_read` yields UNRESPONSIVE; a
`ConnectionError` from `connect()` yields DISCONNECTED; any other error from
the exchange yields UNKNOWN — and every outcome is a returned status line,
never a propagated exception (the function is total on all oracles). -/
theorem app_status_outcome_mapping (o : Oracle) (info : EmulatorInfo)
    (hport : portTruthy info = true) :
    (o.connect = .ok () → o.runAsync = .ok () → o.sendAndRead = .ok none →
        (show_app_status o info).outcome = .idle)
  ∧ (o.connect = .ok () → o.runAsync = .ok () → o.sendAndRead = .error .timeoutError →
        (show_app_status o info).outcome = .unresponsive)
  ∧ (∀ m, o.connect = .error (.connError m) →
        (show_app_status o info).outcome = .disconnected m)
  ∧ (∀ m, o.connect = .ok () → o.runAsync = .ok () →
        o.sendAndRead = .error (.otherError m) →
        (show_app_status o info).outcome = .unknown (.otherError m)) := by
  have hx := port_check_false_of_truthy info hport
  refine ⟨?_, ?_, ?_, ?_⟩
  · intro h1 h2 h3
    simp [show_app_status, hx, h1, h2, h3, check_project_match]
  · intro h1 h2 h3
    simp [show_app_status, hx, h1, h2, h3]
  · intro m h1
    simp [show_app_status, hx, h1, handle_outer_except]
  · intro m h1 h2 h3
    simp [show_app_status, hx, h1, h2, h3, handle_outer_except]

/-- Witness for C4 at a concrete input: a nil-uuid reply on port 9000 yields
the idle outcome. -/
theorem app_status_outcome_mapping_witness :
    (show_app_status oracleIdle info0).outcome = AppOutcome.idle :=
  (app_status_outcome_mapping oracleIdle info0 (by decide)).1 rfl rfl rfl

theorem check_project_match_eq (p : Option Nat) (u : Nat) :
    check_project_match p (some u) = (p == some u) := by
  cases p with
  | none => rfl
  | some v =>
    show ((some u == some v : Bool)) = ((some v == some u : Bool))
    by_cases h : u = v
    · subst h; rfl
    · have h1 : ((some u == some v : Bool)) = false := by simp [h]
      have h2 : ((some v == some u : Bool)) = false := by simp [Ne.symm h]
      rw [h1, h2]

/-- C8: When the reply carries a uuid, `_show_app_status` annotates the result
as current project exactly when the uuid equals the uuid of the project
resolved from the current working directory; an `InvalidProjectException`
("not a project") is treated as no match, never as an error of the query. -/
theorem app_status_project_match (o : Oracle) (info : EmulatorInfo) (u : Nat)
    (hport : portTruthy info = true)
    (h1 : o.connect = .ok ()) (h2 : o.runAsync = .ok ())
    (h3 : o.sendAndRead = .ok (some u)) :
    (show_app_status o info).outcome = .running u (o.projectUuid == some u)
  ∧ (o.projectUuid = none → (show_app_status o info).outcome = .running u false) := by
  have hx := port_check_false_of_truthy info hport
  constructor
  · simp [show_app_status, hx, h1, h2, h3, check_project_match_eq]
  · intro hnone
    simp [show_app_status, hx, h1, h2, h3, hnone, check_project_match]

/-- Witness for C8 at concrete inputs: uuid 77 with a matching project is
annotated; uuid 77 with project resolution failing is not, and is not an
error. -/
theorem app_status_project_match_witness :
    (show_app_status oracleMatch info0).outcome = AppOutcome.running 77 true
  ∧ (show_app_status oracleNoProject info0).outcome = AppOutcome.running 77 false := by
  have h1 := app_status_project_match oracleMatch info0 77 (by decide) rfl rfl rfl
  have h2 := app_status_project_match oracleNoProject info0 77 (by decide) rfl rfl rfl
  exact ⟨h1.1.trans (by decide), h2.2 rfl⟩

/-- C3: evaluation of `_show_app_status` at the failing input for the
connection-release invariant: `connect()` succeeds, then `run_async()` raises
`ConnectionError` before the inner `try`/`finally` is entered, so the outer
handler returns the DISCONNECTED line with the opened connection never
disconnected (opened = 1, closed = 0). -/
theorem app_status_leaks_connection_on_run_async_error :
    (show_app_status oracleLeak info0).opened = 1
  ∧ (show_app_status oracleLeak info0).closed = 0
  ∧ (show_app_status oracleLeak info0).outcome = AppOutcome.disconnected "socket closed" :=
  ⟨rfl, rfl, rfl⟩

/-- C2: On the websocket path, `_install_via_websocket` waits at most 300 time
units for the install-status reply: no reply within the bound yields the
timeout failure; success is reported only when a reply with the designated
Success status code arrived within the bound; a timely reply with any other
code yields the install-failed failure. -/
theorem install_websocket_timeout_and_status (successCode : Nat) (env : WsEnv) :
    ((∀ t s, env.reply = some (t, s) → 300 < t) →
        install_via_websocket successCode env
          = .failure "Timed out waiting for install confirmation.")
  ∧ (install_via_websocket successCode env = .success →
        ∃ t, env.reply = some (t, successCode) ∧ t ≤ 300)
  ∧ (∀ t s, env.reply = some (t, s) → t ≤ 300 → s ≠ successCode →
        install_via_websocket successCode env = .failure "App install failed.") := by
  refine ⟨?_, ?_, ?_⟩
  · intro h
    cases hr : env.reply with
    | none => simp [install_via_websocket, read_transport_message, hr]
    | some ts =>
      obtain ⟨t, s⟩ := ts
      have ht := h t s hr
      simp [install_via_websocket, read_transport_message, hr, Nat.not_le.mpr ht]
  · intro h
    cases hr : env.reply with
    | none => simp [install_via_websocket, read_transport_message, hr] at h
    | some ts =>
      obtain ⟨t, s⟩ := ts
      by_cases ht : t ≤ 300
      · simp [install_via_websocket, read_transport_message, hr, ht] at h
        by_cases hs : s = successCode
        · subst hs
          exact ⟨t, rfl, ht⟩
        · simp [hs] at h
      · simp [install_via_websocket, read_transport_message, hr, ht] at h
  · intro t s hr ht hs
    simp [install_via_websocket, read_transport_message, hr, ht, hs]

/-- Witness for C2 at concrete inputs: a peer that never replies yields the
timeout failure; a reply at time 10 with status 3 (Success code 0) yields the
install-failed failure. -/
theorem install_websocket_timeout_and_status_witness :
    install_via_websocket 0 envNoReply
      = InstallResult.failure "Timed out waiting for install confirmation."
  ∧ install_via_websocket 0 envBadStatus
      = InstallResult.failure "App install failed." := by
  refine ⟨(install_websocket_timeout_and_status 0 envNoReply).1 ?_,
          (install_websocket_timeout_and_status 0 envBadStatus).2.2 10 3 rfl
            (by decide) (by decide)⟩
  intro t s h
  simp [envNoReply] at h

/-- C7: The liveness probe returns false when the probe reports no such
process (absence is folded into false, never raised), propagates any other
OS-level probe error unmodified, and returns true when the probe succeeds. -/
theorem is_pid_running_probe_errors (kill0 : Nat → Option ProbeErr) (pid : Nat) :
    (kill0 pid = some ProbeErr.noSuchProcess → is_pid_running kill0 pid = .ok false)
  ∧ (∀ c, kill0 pid = some (ProbeErr.otherErr c) → is_pid_running kill0 pid = .error c)
  ∧ (kill0 pid = none → is_pid_running kill0 pid = .ok true) :=
  ⟨fun h => by simp [is_pid_running, h],
   fun c h => by simp [is_pid_running, h],
   fun h => by simp [is_pid_running, h]⟩

/-- Witness for C7 at concrete inputs: probing pid 42 when no such process
exists yields false; probing pid 42 with errno 1 propagates the error. -/
theorem is_pid_running_probe_errors_witness :
    is_pid_running kill0Dead 42 = .ok false
  ∧ is_pid_running kill0Perm 42 = .error 1 :=
  ⟨(is_pid_running_probe_errors kill0Dead 42).1 rfl,
   (is_pid_running_probe_errors kill0Perm 42).2.1 1 rfl⟩

theorem transferChunks_ok_iff (total : Nat) (chunks : List (Nat × Bool)) :
    ∀ sent, ((transferChunks total sent chunks).1 = true ↔ ∀ x ∈ chunks, x.2 = true) := by
  induction chunks with
  | nil => intro sent; simp [transferChunks]
  | cons hd tl ih =>
    intro sent
    obtain ⟨c, ok⟩ := hd
    cases ok
    · simp [transferChunks]
    · simp [transferChunks, ih (sent + c)]

theorem transferChunks_cums_chain (total : Nat) (chunks : List (Nat × Bool)) :
    ∀ sent, List.Chain (· ≤ ·) sent
      (((transferChunks total sent chunks).2).map (fun t => t.2.1)) := by
  induction chunks with
  | nil => intro sent; simp [transferChunks]
  | cons hd tl ih =>
    intro sent
    obtain ⟨c, ok⟩ := hd
    cases ok
    · simp [transferChunks]
    · simp only [transferChunks, List.map_cons]
      exact List.Chain.cons (Nat.le_add_right sent c) (ih (sent + c))

theorem chain_le_chain' {a : Nat} {l : List Nat}
    (h : List.Chain (· ≤ ·) a l) : List.Chain' (· ≤ ·) l := by
  cases l with
  | nil => exact trivial
  | cons b t => exact (List.chain_cons.mp h).2

theorem transferChunks_count_total (total : Nat) (chunks : List (Nat × Bool)) :
    ∀ sent, (∀ x ∈ chunks, 0 < x.1) → (∀ x ∈ chunks, x.2 = true) →
      sent + (chunks.map Prod.fst).sum = total → sent < total →
      List.count total (((transferChunks total sent chunks).2).map (fun t => t.2.1)) = 1 := by
  induction chunks with
  | nil =>
    intro sent _ _ hsum hlt
    simp at hsum
    omega
  | cons hd tl ih =>
    intro sent hpos hok hsum hlt
    obtain ⟨c, ok⟩ := hd
    have hok' : ok = true := hok (c, ok) (by simp)
    subst hok'
    simp only [transferChunks, if_true, List.map_cons]
    cases tl with
    | nil =>
      have hct : sent + c = total := by
        simp at hsum
        omega
      simp [transferChunks, hct]
    | cons y ys =>
      have hylt : 0 < y.1 := hpos y (by simp)
      have hsum' : (sent + c) + ((y :: ys).map Prod.fst).sum = total := by
        simp at hsum ⊢
        omega
      have hlt' : sent + c < total := by
        simp at hsum'
        omega
      have hne : sent + c ≠ total := Nat.ne_of_lt hlt'
      rw [List.count_cons]
      simp [hne]
      exact ih (sent + c) (fun x hx => hpos x (by simp [hx]))
        (fun x hx => hok x (by simp [hx])) hsum' hlt'

/-- C6: For every stream-transport install over the spec-modelled chunked
transfer, `_install_via_serial` reports success iff every chunk send
completes without a transfer error; the progress callbacks' cumulative-sent
values are monotonically non-decreasing; and, for positive chunk sizes
summing to the bundle's total size, they reach the total exactly once on
success. -/
theorem install_serial_progress_properties (total : Nat) (chunks : List (Nat × Bool)) :
    ((install_via_serial total chunks).1 = .success ↔ ∀ x ∈ chunks, x.2 = true)
  ∧ List.Chain' (· ≤ ·) (progressCums total chunks)
  ∧ ((∀ x ∈ chunks, 0 < x.1) → (chunks.map Prod.fst).sum = total → 0 < total →
      (install_via_serial total chunks).1 = .success →
      List.count total (progressCums total chunks) = 1) := by
  refine ⟨?_, ?_, ?_⟩
  · constructor
    · intro h
      rw [← transferChunks_ok_iff total chunks 0]
      cases hx : (transferChunks total 0 chunks).1
      · simp [install_via_serial, hx] at h
      · rfl
    · intro h
      have hx := (transferChunks_ok_iff total chunks 0).mpr h
      simp [install_via_serial, hx]
  · exact chain_le_chain' (transferChunks_cums_chain total chunks 0)
  · intro hpos hsum htot hsucc
    have h1 : (transferChunks total 0 chunks).1 = true := by
      cases hx : (transferChunks total 0 chunks).1
      · simp [install_via_serial, hx] at hsucc
      · rfl
    have hok := (transferChunks_ok_iff total chunks 0).mp h1
    exact transferChunks_count_total total chunks 0 hpos hok (by omega) htot

/-- Witness for C6 at a concrete input: two chunks of 3 and 4 bytes, both
sends succeeding, install succeeds and the cumulative progress reaches the
total size 7 exactly once. -/
theorem install_serial_progress_properties_witness :
    (install_via_serial 7 [(3, true), (4, true)]).1 = InstallResult.success
  ∧ List.count 7 (progressCums 7 [(3, true), (4, true)]) = 1 := by
  have h := install_serial_progress_properties 7 [(3, true), (4, true)]
  exact ⟨h.1.mpr (by decide),
    h.2.2 (by decide) (by decide) (by decide) (h.1.mpr (by decide))⟩
